import Mathlib

/-!
# Metal Tracker — valuation engine, shallow embedding

Shallow embedding of the valuation core of the `metal-tracker` repository
(`src/price_service.py`, `src/schemas.py`, `src/main.py`,
`src/scheduler_snapshots.py`), together with theorems checking the
natural-language specification against it.

Modelling conventions:
* Python `float` values are modelled as exact rationals (`ℚ`); the spec
  quotes exact decimal amounts, so the arithmetic is taken at face value.
* Python's `round(x, 2)` is modelled as round-half-to-even at two decimal
  places (`round2` below).
* Python dicts used as keyed mappings are modelled as association lists
  (`List (String × ℚ)` etc.) with `List.lookup`; dict truthiness (`if d:`)
  becomes emptiness of the list.
* Database tables are modelled as lists of rows; SQLAlchemy's
  `query(...).first()` finds the first matching row in list order, and
  `db.add` appends at the end.
* `async` plumbing is dropped: the awaited price mapping becomes an explicit
  `prices` argument, and the module-level price cache becomes an explicit
  state value threaded through `fetch_live_prices`.
-/

namespace MetalTracker

/-- Round-half-to-even to the nearest integer (Python's `round` on exact
values). -/
def roundHalfEven (q : ℚ) : ℤ :=
  let f := ⌊q⌋
  let r := q - f
  if r < 1/2 then f
  else if 1/2 < r then f + 1
  else if f % 2 = 0 then f else f + 1

/-- Python's `round(x, 2)`: round to two decimal places, ties to even. -/
def round2 (q : ℚ) : ℚ := (roundHalfEven (q * 100) : ℚ) / 100

/-! ## `src/schemas.py` — unit conversion and reference spreads -/

/-- `WEIGHT_TO_GRAMS` (schemas.py): conversion factors to grams. -/
def WEIGHT_TO_GRAMS : List (String × ℚ) :=
  [("g", 1), ("oz", 31.1035), ("kg", 1000)]

/-- `convert_to_grams` (schemas.py): `value * WEIGHT_TO_GRAMS.get(unit, 1.0)`. -/
def convert_to_grams (value : ℚ) (unit : String) : ℚ :=
  value * ((WEIGHT_TO_GRAMS.lookup unit).getD 1)

/-- `convert_from_grams` (schemas.py): `grams / WEIGHT_TO_GRAMS.get(unit, 1.0)`. -/
def convert_from_grams (grams : ℚ) (unit : String) : ℚ :=
  grams / ((WEIGHT_TO_GRAMS.lookup unit).getD 1)

/-- `REFERENCE_SPREADS` (schemas.py): market-typical buy-back discounts,
`{metal → {category → percent}}`. -/
def REFERENCE_SPREADS : List (String × List (String × ℚ)) :=
  [("gold",
     [("coin_bullion", 3), ("coin_numismatic", 8), ("bar_large", 2),
      ("bar_small", 4), ("bar_minted", 3.5), ("round", 5),
      ("granulate", 2), ("jewelry", 15)]),
   ("silver",
     [("coin_bullion", 15), ("coin_numismatic", 20), ("bar_large", 12),
      ("bar_small", 18), ("bar_minted", 15), ("round", 18),
      ("granulate", 12), ("jewelry", 30)]),
   ("platinum",
     [("coin_bullion", 5), ("coin_numismatic", 10), ("bar_large", 4),
      ("bar_small", 6), ("bar_minted", 5), ("round", 8),
      ("granulate", 4), ("jewelry", 20)]),
   ("palladium",
     [("coin_bullion", 6), ("coin_numismatic", 12), ("bar_large", 5),
      ("bar_small", 7), ("bar_minted", 6), ("round", 10),
      ("granulate", 5), ("jewelry", 25)])]

/-- `get_default_spread` (schemas.py):
`REFERENCE_SPREADS.get(metal_type.lower(), {}).get(spread_category, 5.0)`. -/
def get_default_spread (metal_type spread_category : String) : ℚ :=
  ((((REFERENCE_SPREADS.lookup metal_type.toLower).getD []).lookup
      spread_category).getD 5)

/-! ## Data model (`src/models.py` `Position` row) -/

/-- A `positions` table row (models.py). Only the engine-relevant columns. -/
structure Position where
  metal_type : String
  spread_category : Option String
  quantity : ℕ
  weight_per_unit : ℚ
  weight_unit : String
  weight_grams : ℚ
  purchase_price_eur : ℚ
  purchase_date : Option ℤ
  spread_percent : Option ℚ
  discount_percent : Option ℚ
deriving Repr, DecidableEq

/-! ## `src/scheduler_snapshots.py` — spread resolution cascade -/

/-- The effective category used by `get_effective_spread`:
`position.spread_category or "bar_large"` (Python `or`: `None` and the empty
string are falsy). -/
def effectiveCategory (p : Position) : String :=
  match p.spread_category with
  | some c => if c = "" then "bar_large" else c
  | none => "bar_large"

/-- `get_effective_spread` (scheduler_snapshots.py, lines 43-59):
position override, then deprecated discount, then the user's per-category
default (only consulted when the defaults dict is non-empty and has the key),
then `get_default_spread` on the lowercased metal. -/
def get_effective_spread (p : Position) (default_spreads : List (String × ℚ)) : ℚ :=
  match p.spread_percent with
  | some s => s
  | none =>
    match p.discount_percent with
    | some d => d
    | none =>
      let category := effectiveCategory p
      match (if default_spreads = [] then none else default_spreads.lookup category) with
      | some v => v
      | none => get_default_spread p.metal_type.toLower category

/-- The resolution cascade in the specification's words (§4.2): explicit
spread, deprecated discount, user default for the position's category when
that key is present, `ReferenceSpreadTable[metal][category]`, and finally the
constant `5.0` when the metal/category pair is unknown to the table. -/
def spreadResolverSpec (p : Position) (userDefaults : List (String × ℚ)) : ℚ :=
  match p.spread_percent with
  | some s => s
  | none =>
    match p.discount_percent with
    | some d => d
    | none =>
      let category := effectiveCategory p
      match userDefaults.lookup category with
      | some v => v
      | none =>
        match (REFERENCE_SPREADS.lookup p.metal_type.toLower).bind
            (fun m => m.lookup category) with
        | some v => v
        | none => 5

/-! ## `src/price_service.py` — price cache, fallback, valuation -/

/-- `CACHE_DURATION_MINUTES` (price_service.py). Time is modelled in minutes
as a rational. -/
def CACHE_DURATION_MINUTES : ℚ := 5

/-- `GRAMS_PER_OZ` (price_service.py). -/
def GRAMS_PER_OZ : ℚ := 31.1035

/-- A decoded GOLD.DE API response: each field of `METAL_API_FIELDS` is
present or absent (`data.get` semantics of `if api_field in data`). -/
structure ApiData where
  gold_eur : Option ℚ
  silber_eur : Option ℚ
  platin_eur : Option ℚ
  palladium_eur : Option ℚ
deriving Repr, DecidableEq

/-- `METAL_API_FIELDS` (price_service.py): metal name and response field. -/
def METAL_API_FIELDS : List (String × (ApiData → Option ℚ)) :=
  [("gold", ApiData.gold_eur), ("silver", ApiData.silber_eur),
   ("platinum", ApiData.platin_eur), ("palladium", ApiData.palladium_eur)]

/-- The price-building loop of `fetch_live_prices`: for every metal whose API
field is present, store `price_per_oz / GRAMS_PER_OZ`, in field order. -/
def buildPrices (data : ApiData) : List (String × ℚ) :=
  METAL_API_FIELDS.filterMap
    (fun mf => (mf.2 data).map (fun price_per_oz => (mf.1, price_per_oz / GRAMS_PER_OZ)))

/-- The module-level mutable state of price_service.py: `_price_cache` and
`_cache_timestamp`. -/
structure CacheState where
  price_cache : List (String × ℚ)
  cache_timestamp : Option ℚ
deriving Repr, DecidableEq

/-- `get_fallback_prices` (price_service.py, lines 65-72). -/
def get_fallback_prices : List (String × ℚ) :=
  [("gold", 118.50), ("silver", 1.96), ("platinum", 56.15), ("palladium", 44.20)]

/-- The `try`/`except` body of `fetch_live_prices` once the cache was found
stale: `result = some data` stands for a fetch whose HTTP request, status
check and JSON decoding all succeeded; `none` stands for any exception
(network error, non-2xx status, malformed body, timeout), which leaves the
module globals untouched and falls back to the stale cache or, when the
cache dict is empty, to `get_fallback_prices`. -/
def fetch_refresh (st : CacheState) (now : ℚ) (result : Option ApiData) :
    List (String × ℚ) × CacheState :=
  match result with
  | some data =>
    let prices := buildPrices data
    (prices, ⟨prices, some now⟩)
  | none =>
    if st.price_cache = [] then (get_fallback_prices, st)
    else (st.price_cache, st)

/-- `fetch_live_prices` (price_service.py, lines 27-62): return the cached
mapping while `now - _cache_timestamp < CACHE_DURATION_MINUTES`, otherwise
attempt a refresh. Returns the price mapping and the new module state. -/
def fetch_live_prices (st : CacheState) (now : ℚ) (result : Option ApiData) :
    List (String × ℚ) × CacheState :=
  match st.cache_timestamp with
  | some t =>
    if now - t < CACHE_DURATION_MINUTES then (st.price_cache, st)
    else fetch_refresh st now result
  | none => fetch_refresh st now result

/-- `get_price_per_gram` (price_service.py, lines 75-78), with the fetched
mapping passed explicitly: `prices.get(metal_type.lower(), 0.0)`. -/
def get_price_per_gram (prices : List (String × ℚ)) (metal_type : String) : ℚ :=
  (prices.lookup metal_type.toLower).getD 0

/-- `calculate_current_value` (price_service.py, lines 96-114): buy-back value
of a position, i.e. spot price reduced by the spread when it is positive,
times the weight, rounded to 2 decimals. The Python default for
`spread_percent` is `0.0`. -/
def calculate_current_value (prices : List (String × ℚ)) (metal_type : String)
    (weight_grams : ℚ) (spread_percent : ℚ) : ℚ :=
  let spot_price_per_gram := get_price_per_gram prices metal_type
  let spot_price_per_gram :=
    if spread_percent > 0 then spot_price_per_gram * (1 - spread_percent / 100)
    else spot_price_per_gram
  round2 (spot_price_per_gram * weight_grams)

/-- Result record of `calculate_position_values`. -/
structure PositionValues where
  spot_value_eur : ℚ
  buyback_value_eur : ℚ
  spread_percent : ℚ
  spread_eur : ℚ
deriving Repr, DecidableEq

/-- `calculate_position_values` (price_service.py, lines 117-144): spot value,
buy-back value and spread amount for one position, each rounded only at the
output boundary. -/
def calculate_position_values (prices : List (String × ℚ)) (metal_type : String)
    (weight_grams : ℚ) (spread_percent : ℚ) : PositionValues :=
  let spot_price_per_gram := get_price_per_gram prices metal_type
  let spot_value := spot_price_per_gram * weight_grams
  let buyback_value :=
    if spread_percent > 0 then spot_value * (1 - spread_percent / 100) else spot_value
  let spread_eur := spot_value - buyback_value
  { spot_value_eur := round2 spot_value
    buyback_value_eur := round2 buyback_value
    spread_percent := spread_percent
    spread_eur := round2 spread_eur }

/-! ## `src/main.py` — portfolio summary -/

/-- Per-metal accumulator of `get_portfolio_summary`'s first loop. -/
structure RawAgg where
  purchase_value_eur : ℚ
  current_value_eur : ℚ
  weight_grams : ℚ
  positions_count : ℕ
deriving Repr, DecidableEq

/-- Per-metal entry after `get_portfolio_summary`'s second loop. -/
structure MetalAgg where
  purchase_value_eur : ℚ
  current_value_eur : ℚ
  weight_grams : ℚ
  positions_count : ℕ
  profit_loss_eur : ℚ
  profit_loss_percent : ℚ
deriving Repr, DecidableEq

/-- `schemas.PortfolioSummary` (without the `last_updated` wall-clock field).
`by_metal` keeps the dict's insertion order. -/
structure PortfolioSummary where
  total_purchase_value_eur : ℚ
  total_current_value_eur : ℚ
  total_profit_loss_eur : ℚ
  total_profit_loss_percent : ℚ
  positions_count : ℕ
  by_metal : List (String × MetalAgg)
deriving Repr, DecidableEq

/-- The `by_metal` dict update in `get_portfolio_summary`'s first loop:
create the entry with zeros on first sight of the metal, then `+=`. -/
def addPositionToByMetal (bm : List (String × RawAgg)) (metal : String)
    (purchase current weight : ℚ) : List (String × RawAgg) :=
  match bm with
  | [] => [(metal, ⟨0 + purchase, 0 + current, 0 + weight, 0 + 1⟩)]
  | (m, a) :: rest =>
    if m = metal then
      (m, ⟨a.purchase_value_eur + purchase, a.current_value_eur + current,
           a.weight_grams + weight, a.positions_count + 1⟩) :: rest
    else (m, a) :: addPositionToByMetal rest metal purchase current weight

/-- `get_portfolio_summary` (main.py, lines 311-382), with the price mapping
passed explicitly. Note the source calls `calculate_current_value` with two
arguments only, so `spread_percent` takes its Python default `0.0`. -/
def get_portfolio_summary (prices : List (String × ℚ)) (positions : List Position) :
    PortfolioSummary :=
  if positions = [] then
    { total_purchase_value_eur := 0, total_current_value_eur := 0
      total_profit_loss_eur := 0, total_profit_loss_percent := 0
      positions_count := 0, by_metal := [] }
  else
    let acc := positions.foldl
      (fun (acc : ℚ × ℚ × List (String × RawAgg)) p =>
        let current_value := calculate_current_value prices p.metal_type p.weight_grams 0
        (acc.1 + p.purchase_price_eur, acc.2.1 + current_value,
         addPositionToByMetal acc.2.2 p.metal_type p.purchase_price_eur
           current_value p.weight_grams))
      (0, 0, [])
    let total_purchase := acc.1
    let total_current := acc.2.1
    let by_metal := acc.2.2.map (fun ma =>
      let purchase := ma.2.purchase_value_eur
      let current := ma.2.current_value_eur
      (ma.1,
       ({ purchase_value_eur := round2 purchase
          current_value_eur := round2 current
          weight_grams := round2 ma.2.weight_grams
          positions_count := ma.2.positions_count
          profit_loss_eur := round2 (current - purchase)
          profit_loss_percent :=
            round2 (if purchase > 0 then (current - purchase) / purchase * 100 else 0) }
         : MetalAgg)))
    let profit_loss := total_current - total_purchase
    let profit_loss_percent :=
      if total_purchase > 0 then profit_loss / total_purchase * 100 else 0
    { total_purchase_value_eur := round2 total_purchase
      total_current_value_eur := round2 total_current
      total_profit_loss_eur := round2 profit_loss
      total_profit_loss_percent := round2 profit_loss_percent
      positions_count := positions.length
      by_metal := by_metal }

/-! ## `src/main.py` / `src/scheduler_snapshots.py` — daily snapshot upsert -/

/-- A `portfolio_snapshots` table row (models.py). -/
structure Snapshot where
  user_id : ℕ
  date : ℤ
  total_purchase_value_eur : ℚ
  total_current_value_eur : ℚ
  total_weight_gold_g : ℚ
  total_weight_silver_g : ℚ
  total_weight_platinum_g : ℚ
  total_weight_palladium_g : ℚ
  positions_count : ℕ
deriving Repr, DecidableEq

/-- The numeric fields written by the snapshot upsert. -/
structure SnapAgg where
  total_purchase_value_eur : ℚ
  total_current_value_eur : ℚ
  total_weight_gold_g : ℚ
  total_weight_silver_g : ℚ
  total_weight_platinum_g : ℚ
  total_weight_palladium_g : ℚ
  positions_count : ℕ
deriving Repr, DecidableEq

/-- Build a fresh snapshot row (the `models.PortfolioSnapshot(...)` branch). -/
def mkSnapshot (uid : ℕ) (d : ℤ) (a : SnapAgg) : Snapshot :=
  { user_id := uid, date := d
    total_purchase_value_eur := a.total_purchase_value_eur
    total_current_value_eur := a.total_current_value_eur
    total_weight_gold_g := a.total_weight_gold_g
    total_weight_silver_g := a.total_weight_silver_g
    total_weight_platinum_g := a.total_weight_platinum_g
    total_weight_palladium_g := a.total_weight_palladium_g
    positions_count := a.positions_count }

/-- Overwrite all numeric fields of an existing snapshot row in place (the
`if snapshot:` branch). -/
def setSnapFields (s : Snapshot) (a : SnapAgg) : Snapshot :=
  { s with
    total_purchase_value_eur := a.total_purchase_value_eur
    total_current_value_eur := a.total_current_value_eur
    total_weight_gold_g := a.total_weight_gold_g
    total_weight_silver_g := a.total_weight_silver_g
    total_weight_platinum_g := a.total_weight_platinum_g
    total_weight_palladium_g := a.total_weight_palladium_g
    positions_count := a.positions_count }

/-- Does a snapshot row belong to `(uid, d)`? (The upsert's filter.) -/
def snapKeyP (uid : ℕ) (d : ℤ) (s : Snapshot) : Bool :=
  decide (s.user_id = uid ∧ s.date = d)

/-- The snapshot upsert shared by `update_daily_snapshot` (main.py, lines
482-510) and `create_snapshot_for_user` (scheduler_snapshots.py, lines
92-121): find the first row for `(uid, d)` and overwrite its numeric fields,
else append a fresh row. -/
def upsert_snapshot (db : List Snapshot) (uid : ℕ) (d : ℤ) (a : SnapAgg) :
    List Snapshot :=
  match db with
  | [] => [mkSnapshot uid d a]
  | s :: rest =>
    if s.user_id = uid ∧ s.date = d then setSnapFields s a :: rest
    else s :: upsert_snapshot rest uid d a

/-- The per-metal weight accumulation of the snapshot loop
(`if p.metal_type in weights: weights[p.metal_type] += p.weight_grams`). -/
def weightSum (positions : List Position) (metal : String) : ℚ :=
  positions.foldl (fun acc p => if p.metal_type = metal then acc + p.weight_grams else acc) 0

/-- The totals computed by `update_daily_snapshot`'s loop (main.py, lines
471-480); `calculate_current_value` is called without a spread argument. -/
def snapshot_agg (prices : List (String × ℚ)) (positions : List Position) : SnapAgg :=
  let totals := positions.foldl
    (fun (acc : ℚ × ℚ) p =>
      (acc.1 + p.purchase_price_eur,
       acc.2 + calculate_current_value prices p.metal_type p.weight_grams 0))
    (0, 0)
  { total_purchase_value_eur := totals.1
    total_current_value_eur := totals.2
    total_weight_gold_g := weightSum positions "gold"
    total_weight_silver_g := weightSum positions "silver"
    total_weight_platinum_g := weightSum positions "platinum"
    total_weight_palladium_g := weightSum positions "palladium"
    positions_count := positions.length }

/-- `update_daily_snapshot` (main.py, lines 461-510): with no positions it
returns before touching the snapshot table; otherwise it upserts today's
snapshot for the user. -/
def update_daily_snapshot (db : List Snapshot) (prices : List (String × ℚ))
    (uid : ℕ) (today : ℤ) (positions : List Position) : List Snapshot :=
  if positions = [] then db
  else upsert_snapshot db uid today (snapshot_agg prices positions)

/-! ## `src/main.py` — position create/update (weight derivation) -/

/-- `schemas.PositionCreate` payload (weight-relevant and descriptive fields). -/
structure PositionCreate where
  metal_type : String
  spread_category : Option String
  quantity : ℕ
  weight_per_unit : ℚ
  weight_unit : String
  purchase_price_eur : ℚ
  purchase_date : Option ℤ
  spread_percent : Option ℚ
  discount_percent : Option ℚ
deriving Repr, DecidableEq

/-- `create_position` (main.py, lines 151-190), the row construction:
`weight_grams = convert_to_grams(weight_per_unit, unit) * quantity`. -/
def create_position (c : PositionCreate) : Position :=
  { metal_type := c.metal_type
    spread_category := c.spread_category
    quantity := c.quantity
    weight_per_unit := c.weight_per_unit
    weight_unit := c.weight_unit
    weight_grams := convert_to_grams c.weight_per_unit c.weight_unit * c.quantity
    purchase_price_eur := c.purchase_price_eur
    purchase_date := c.purchase_date
    spread_percent := c.spread_percent
    discount_percent := c.discount_percent }

/-- `schemas.PositionUpdate` restricted to the weight-determining fields
(`exclude_unset`: `none` means the key was absent from the request). The
remaining updatable fields do not enter the weight invariant. -/
structure PositionUpdate where
  quantity : Option ℕ
  weight_per_unit : Option ℚ
  weight_unit : Option String
deriving Repr, DecidableEq

/-- `update_position` (main.py, lines 260-272), the weight recomputation: when
any of `weight_per_unit`, `weight_unit`, `quantity` is in the update payload,
merge each with the stored value and recompute `weight_grams`. -/
def update_position (p : Position) (u : PositionUpdate) : Position :=
  if u.weight_per_unit.isSome || u.weight_unit.isSome || u.quantity.isSome then
    let weight_per_unit := u.weight_per_unit.getD p.weight_per_unit
    let unit := u.weight_unit.getD p.weight_unit
    let quantity := u.quantity.getD p.quantity
    { p with
      quantity := quantity
      weight_per_unit := weight_per_unit
      weight_unit := unit
      weight_grams := convert_to_grams weight_per_unit unit * quantity }
  else p

/-- §3/§8: the derived invariant
`weightGrams == quantity × convertToGrams(perUnitWeight, unit)`. -/
def WeightInvariant (p : Position) : Prop :=
  p.weight_grams = (p.quantity : ℚ) * convert_to_grams p.weight_per_unit p.weight_unit

/-! ## HistoryBackfiller (spec §4.6) -/

/-- Modelled from the spec: the repository has no `HistoryBackfiller`
implementation under `src/` (only §4.6 of the design describes it), so the
walk bound is taken from the spec's words: the first simulated day is
`max(position.purchaseDate, today − 365)`. Dates are day numbers (`ℤ`). -/
def backfillStart (purchaseDate today : ℤ) : ℤ :=
  max purchaseDate (today - 365)

/-- Modelled from the spec: "walk every calendar day `d` from
`max(position.purchaseDate, today − 365)` up to (but excluding) today". -/
def backfillDays (purchaseDate today : ℤ) : List ℤ :=
  (List.range (today - backfillStart purchaseDate today).toNat).map
    (fun i : ℕ => backfillStart purchaseDate today + (i : ℤ))

/-- Modelled from the spec: "include in that day's aggregate only the
positions whose own purchaseDate is on or before `d`" (positions without a
purchase date never contribute to a historical day). -/
def includedPositions (allPositions : List Position) (d : ℤ) : List Position :=
  allPositions.filter (fun p =>
    match p.purchase_date with
    | some pd => decide (pd ≤ d)
    | none => false)

/-- Modelled from the spec: the purchase-value total of day `d`. -/
def dayTotalPurchase (allPositions : List Position) (d : ℤ) : ℚ :=
  ((includedPositions allPositions d).map (fun p => p.purchase_price_eur)).sum

/-- Modelled from the spec: the simulated current value of day `d` — reference
spot value of the positions held on `d`, scaled by that day's variance factor,
"applied uniformly to all metals for that day". The pseudo-random variance is
an oracle parameter. -/
def dayTotalCurrent (referencePrices : List (String × ℚ)) (allPositions : List Position)
    (d : ℤ) (variance : ℤ → ℚ) : ℚ :=
  (((includedPositions allPositions d).map
      (fun p => get_price_per_gram referencePrices p.metal_type * p.weight_grams)).sum)
    * (1 + variance d)

/-- A snapshot row written by the backfiller. -/
structure BackfillWrite where
  owner : ℕ
  date : ℤ
  total_purchase_value_eur : ℚ
  total_current_value_eur : ℚ
deriving Repr, DecidableEq

/-- Modelled from the spec: `backfill(position, allPositions, referencePrices)`
(§4.6) — walk the day range, skip days that already have a snapshot for the
owner (`existingDates`), skip days whose purchase total is 0, write the rest.
Returns the list of snapshot rows written. -/
def backfill (owner : ℕ) (position : Position) (allPositions : List Position)
    (existingDates : List ℤ) (today : ℤ) (variance : ℤ → ℚ)
    (referencePrices : List (String × ℚ)) : List BackfillWrite :=
  match position.purchase_date with
  | none => []
  | some purchaseDate =>
    (backfillDays purchaseDate today).filterMap (fun d =>
      if d ∈ existingDates then none
      else
        let totalPurchase := dayTotalPurchase allPositions d
        if totalPurchase = 0 then none
        else some
          { owner := owner, date := d
            total_purchase_value_eur := totalPurchase
            total_current_value_eur :=
              dayTotalCurrent referencePrices allPositions d variance })

/-! ## Auxiliary predicates and concrete instances used by the theorems -/

/-- The §3 invariant: at most one snapshot row per `(ownerId, date)`. -/
def SnapInvariant (db : List Snapshot) : Prop :=
  ∀ uid d, (db.countP (snapKeyP uid d)) ≤ 1

/-- Is a backfill write inside the walked day range
`[max(purchaseDate, today − 365), today)` of its position? -/
def backfillWithinRange (position : Position) (today : ℤ) (w : BackfillWrite) : Bool :=
  match position.purchase_date with
  | none => false
  | some pd => decide (backfillStart pd today ≤ w.date ∧ w.date < today)

/-- Price table used in the concrete valuation checks: gold at 100 EUR/gram. -/
def c1Prices : List (String × ℚ) := [("gold", 100)]

/-- A gold position of 10 g with an explicit 5% spread and purchase price
500 EUR. -/
def c1Pos : Position :=
  { metal_type := "gold", spread_category := some "bar_large", quantity := 1,
    weight_per_unit := 10, weight_unit := "g", weight_grams := 10,
    purchase_price_eur := 500, purchase_date := none,
    spread_percent := some 5, discount_percent := none }

/-- The cascade example of §8: explicit spread 7, deprecated discount 3. -/
def c2Pos : Position :=
  { metal_type := "gold", spread_category := some "coin_bullion", quantity := 1,
    weight_per_unit := 1, weight_unit := "oz", weight_grams := 31.1035,
    purchase_price_eur := 2000, purchase_date := none,
    spread_percent := some 7, discount_percent := some 3 }

/-- User defaults granting 2% for the category of `c2Pos`. -/
def c2Defaults : List (String × ℚ) := [("coin_bullion", 2)]

/-- A position currently satisfying the weight invariant (10 g in grams). -/
def c7Pos : Position :=
  { metal_type := "gold", spread_category := some "bar_small", quantity := 1,
    weight_per_unit := 10, weight_unit := "g", weight_grams := 10,
    purchase_price_eur := 900, purchase_date := none,
    spread_percent := none, discount_percent := none }

/-- An update payload changing only the quantity. -/
def c7Upd : PositionUpdate :=
  { quantity := some 2, weight_per_unit := none, weight_unit := none }

/-! ## Helper lemmas -/

lemma toNat_ofNat_valid {n : ℕ} (h : n.isValidChar) : (Char.ofNat n).toNat = n := by
  rw [Char.ofNat, dif_pos h]; rfl

lemma toLower_toNat_not_upper (c : Char) :
    ¬(c.toLower.toNat ≥ 65 ∧ c.toLower.toNat ≤ 90) := by
  rw [Char.toLower]
  by_cases h : c.toNat ≥ 65 ∧ c.toNat ≤ 90
  · rw [if_pos h, toNat_ofNat_valid (Or.inl (by omega))]; omega
  · rw [if_neg h]; omega

lemma char_toLower_idem (c : Char) : c.toLower.toLower = c.toLower := by
  have h := toLower_toNat_not_upper c
  generalize hd : c.toLower = d at h ⊢
  rw [Char.toLower, if_neg h]

lemma string_toLower_idem (s : String) : s.toLower.toLower = s.toLower := by
  simp only [String.toLower, String.map_eq]
  simp [List.map_map, Function.comp_def, char_toLower_idem]

lemma toLower_gold : "gold".toLower = "gold" := by
  rw [String.toLower, String.map_eq]; rfl

lemma get_price_gold : get_price_per_gram [("gold", (100:ℚ))] "gold" = 100 := by
  simp [get_price_per_gram, toLower_gold, List.lookup]

lemma default_spread_eq_spec (m c : String) :
    get_default_spread m.toLower c =
      (match (REFERENCE_SPREADS.lookup m.toLower).bind (fun t => t.lookup c) with
       | some v => v
       | none => 5) := by
  unfold get_default_spread
  rw [string_toLower_idem]
  cases hm : REFERENCE_SPREADS.lookup m.toLower with
  | none => simp
  | some t => cases hl : t.lookup c <;> simp [hl]

lemma countP_upsert_self (db : List Snapshot) (uid : ℕ) (d : ℤ) (a : SnapAgg) :
    (upsert_snapshot db uid d a).countP (snapKeyP uid d) =
      max 1 (db.countP (snapKeyP uid d)) := by
  induction db with
  | nil => simp [upsert_snapshot, List.countP_cons, snapKeyP, mkSnapshot]
  | cons s rest ih =>
    by_cases h : s.user_id = uid ∧ s.date = d
    · have hkey : snapKeyP uid d s = true := by simp [snapKeyP, h.1, h.2]
      have hkey2 : snapKeyP uid d (setSnapFields s a) = true := by
        simp [snapKeyP, setSnapFields, h.1, h.2]
      simp [upsert_snapshot, if_pos h, List.countP_cons, hkey, hkey2]
    · have hkey : snapKeyP uid d s = false := by simp [snapKeyP]; tauto
      simp [upsert_snapshot, if_neg h, List.countP_cons, hkey, ih]

lemma countP_upsert_other (db : List Snapshot) (uid : ℕ) (d : ℤ) (a : SnapAgg)
    (uid' : ℕ) (d' : ℤ) (h : ¬(uid' = uid ∧ d' = d)) :
    (upsert_snapshot db uid d a).countP (snapKeyP uid' d') =
      db.countP (snapKeyP uid' d') := by
  induction db with
  | nil =>
    have hkey : snapKeyP uid' d' (mkSnapshot uid d a) = false := by
      simp [snapKeyP, mkSnapshot]; tauto
    simp [upsert_snapshot, List.countP_cons, hkey]
  | cons s rest ih =>
    by_cases hk : s.user_id = uid ∧ s.date = d
    · have heq : snapKeyP uid' d' (setSnapFields s a) = snapKeyP uid' d' s := by
        simp [snapKeyP, setSnapFields]
      simp [upsert_snapshot, if_pos hk, List.countP_cons, heq]
    · simp [upsert_snapshot, if_neg hk, List.countP_cons, ih]

lemma upsert_fresh_append (db : List Snapshot) (uid : ℕ) (d : ℤ) (a : SnapAgg)
    (h : db.countP (snapKeyP uid d) = 0) :
    upsert_snapshot db uid d a = db ++ [mkSnapshot uid d a] := by
  induction db with
  | nil => rfl
  | cons s rest ih =>
    rw [List.countP_cons] at h
    by_cases hk : s.user_id = uid ∧ s.date = d
    · have hkey : snapKeyP uid d s = true := by simp [snapKeyP, hk.1, hk.2]
      simp [hkey] at h
    · rw [upsert_snapshot]
      rw [if_neg hk, ih (by omega)]
      rfl

lemma upsert_upsert_fresh (db : List Snapshot) (uid : ℕ) (d : ℤ) (a1 a2 : SnapAgg)
    (h : db.countP (snapKeyP uid d) = 0) :
    upsert_snapshot (upsert_snapshot db uid d a1) uid d a2 =
      db ++ [mkSnapshot uid d a2] := by
  rw [upsert_fresh_append db uid d a1 h]
  induction db with
  | nil => simp [upsert_snapshot, mkSnapshot, setSnapFields]
  | cons s rest ih =>
    rw [List.countP_cons] at h
    by_cases hk : s.user_id = uid ∧ s.date = d
    · have hkey : snapKeyP uid d s = true := by simp [snapKeyP, hk.1, hk.2]
      simp [hkey] at h
    · rw [List.cons_append, upsert_snapshot, if_neg hk, List.cons_append]
      exact congrArg (s :: ·) (ih (by omega))

lemma filter_append_single (db : List Snapshot) (uid : ℕ) (d : ℤ) (a : SnapAgg)
    (h : db.countP (snapKeyP uid d) = 0) :
    (db ++ [mkSnapshot uid d a]).filter (snapKeyP uid d) = [mkSnapshot uid d a] := by
  rw [List.filter_append]
  have h1 : db.filter (snapKeyP uid d) = [] := by
    rw [List.filter_eq_nil_iff]
    intro s hs
    have := List.countP_eq_zero.mp h s hs
    simpa using this
  rw [h1]
  simp [List.filter, snapKeyP, mkSnapshot]

/-! ## Claim theorems -/

/-- C1: against the claim, `get_portfolio_summary` values positions at the
undiscounted spot price: it calls `calculate_current_value` without a spread
argument (Python default `0.0`), so with gold at 100 EUR/gram a 10 g position
carrying a resolved effective spread of 5% contributes 1000.00 EUR to the
total and to the per-metal current value, while its buy-back value under the
resolved spread is 950.00 EUR. The scheduler path
(`scheduler_snapshots.py`, comment `BUG FIX`) shows the resolved spread was
meant to be applied, so this is a bug in `main.py`. -/
theorem C1_summary_current_value_is_undiscounted_spot :
    (get_portfolio_summary c1Prices [c1Pos]).total_current_value_eur = 1000 ∧
    ((get_portfolio_summary c1Prices [c1Pos]).by_metal.map
        (fun ma => (ma.1, ma.2.current_value_eur))) = [("gold", 1000)] ∧
    get_effective_spread c1Pos [] = 5 ∧
    calculate_current_value c1Prices c1Pos.metal_type c1Pos.weight_grams
      (get_effective_spread c1Pos []) = 950 ∧
    (get_portfolio_summary c1Prices [c1Pos]).total_current_value_eur ≠
      calculate_current_value c1Prices c1Pos.metal_type c1Pos.weight_grams
        (get_effective_spread c1Pos []) := by
  have hspread : get_effective_spread c1Pos [] = 5 := rfl
  have hsum : (get_portfolio_summary c1Prices [c1Pos]).total_current_value_eur = 1000 := by
    simp only [get_portfolio_summary, c1Prices, c1Pos, List.foldl, addPositionToByMetal,
      calculate_current_value, get_price_gold]
    norm_num [round2, roundHalfEven]
  have hby : ((get_portfolio_summary c1Prices [c1Pos]).by_metal.map
      (fun ma => (ma.1, ma.2.current_value_eur))) = [("gold", 1000)] := by
    simp only [get_portfolio_summary, c1Prices, c1Pos, List.foldl, addPositionToByMetal,
      calculate_current_value, get_price_gold]
    norm_num [round2, roundHalfEven]
  have hbuy : calculate_current_value c1Prices c1Pos.metal_type c1Pos.weight_grams
      (get_effective_spread c1Pos []) = 950 := by
    rw [hspread]
    simp only [c1Prices, c1Pos, calculate_current_value, get_price_gold]
    norm_num [round2, roundHalfEven]
  refine ⟨hsum, hby, hspread, hbuy, ?_⟩
  rw [hsum, hbuy]
  norm_num

/-- C2: the resolved spread is the first defined value in the order explicit
spread, deprecated discount, user default for the category, reference table
entry, constant 5.0 (`get_effective_spread` agrees with the cascade
`spreadResolverSpec` written from the specification); in particular a
position with explicit spread 7, deprecated discount 3 and a user default of
2 resolves to 7. -/
theorem C2_spread_resolution_cascade :
    (∀ (p : Position) (userDefaults : List (String × ℚ)),
      get_effective_spread p userDefaults = spreadResolverSpec p userDefaults) ∧
    get_effective_spread c2Pos c2Defaults = 7 := by
  refine ⟨fun p ud => ?_, rfl⟩
  unfold get_effective_spread spreadResolverSpec
  cases p.spread_percent with
  | some s => rfl
  | none =>
    cases p.discount_percent with
    | some d => rfl
    | none =>
      simp only
      by_cases hud : ud = []
      · subst hud
        simp only [List.lookup_nil, if_pos rfl]
        exact default_spread_eq_spec p.metal_type (effectiveCategory p)
      · rw [if_neg hud]
        cases hl : ud.lookup (effectiveCategory p) with
        | some v => rfl
        | none => exact default_spread_eq_spec p.metal_type (effectiveCategory p)

/-- C3: for every price table, metal, weight `w` and spread `s`, the
per-position valuation returns `spot_value_eur = round2 (p * w)`,
`buyback_value_eur = round2 (p * w * (1 - s/100))` when `s > 0` and
`round2 (p * w)` otherwise, and `spread_eur = round2 (spot - buyback)`,
rounding only at the output boundary; concretely 100 EUR/gram, 10 g, 5%
gives 1000.00 / 950.00 / 50.00. -/
theorem C3_position_valuation_formulas :
    (∀ (prices : List (String × ℚ)) (metal : String) (w s : ℚ),
      calculate_position_values prices metal w s =
        { spot_value_eur := round2 (get_price_per_gram prices metal * w)
          buyback_value_eur := round2 (if s > 0
            then get_price_per_gram prices metal * w * (1 - s / 100)
            else get_price_per_gram prices metal * w)
          spread_percent := s
          spread_eur := round2 (get_price_per_gram prices metal * w -
            (if s > 0 then get_price_per_gram prices metal * w * (1 - s / 100)
             else get_price_per_gram prices metal * w)) }) ∧
    calculate_position_values [("gold", 100)] "gold" 10 5 =
      { spot_value_eur := 1000, buyback_value_eur := 950,
        spread_percent := 5, spread_eur := 50 } := by
  constructor
  · intro prices metal w s
    rfl
  · simp only [calculate_position_values, get_price_gold]
    norm_num [round2, roundHalfEven, PositionValues.mk.injEq]

/-- C4 (amended): when a refresh past the TTL fails, the cache state is left
unchanged and the stale mapping is returned provided the cached mapping is
non-empty; the hardcoded fallback table is returned exactly when the cached
mapping is empty. (The claim as stated is refuted by
`C4_empty_success_counterexample`: a successful fetch whose response holds
none of the four metal fields leaves an empty cached mapping, and the next
failed refresh then returns the fallback table although a prior successful
fetch exists.) -/
theorem C4_failed_refresh_stale_or_fallback :
    ∀ (st : CacheState) (now : ℚ),
      (∀ t, st.cache_timestamp = some t → ¬(now - t < CACHE_DURATION_MINUTES)) →
      (st.price_cache ≠ [] → fetch_live_prices st now none = (st.price_cache, st)) ∧
      (st.price_cache = [] → fetch_live_prices st now none = (get_fallback_prices, st)) := by
  intro st now h
  cases hts : st.cache_timestamp with
  | none =>
    constructor
    · intro hne; simp [fetch_live_prices, hts, fetch_refresh, hne]
    · intro he; simp [fetch_live_prices, hts, fetch_refresh, he]
  | some t =>
    have hn := h t hts
    constructor
    · intro hne; simp [fetch_live_prices, hts, hn, fetch_refresh, hne]
    · intro he; simp [fetch_live_prices, hts, hn, fetch_refresh, he]

/-- C4 witness: a failed refresh with a non-empty cached mapping returns the
stale mapping and leaves the state unchanged. -/
theorem C4_failed_refresh_stale_or_fallback_witness :
    ([("gold", (100:ℚ))] ≠ ([] : List (String × ℚ))) ∧
    fetch_live_prices ⟨[("gold", 100)], none⟩ 10 none =
      ([("gold", 100)], ⟨[("gold", 100)], none⟩) :=
  ⟨by simp,
   (C4_failed_refresh_stale_or_fallback ⟨[("gold", 100)], none⟩ 10
      (fun t ht => Option.noConfusion ht)).1 (by simp)⟩

/-- C4 counterexample to the claim as stated: at time 0 a fetch succeeds but
its response holds none of the four metal fields, so the cached mapping
becomes empty (and the timestamp is set — the fetch was a success); at time
10, past the TTL, a failing refresh returns the hardcoded fallback table,
not the stale mapping `[]` of the previous successful fetch. -/
theorem C4_empty_success_counterexample :
    fetch_live_prices ⟨[], none⟩ 0 (some ⟨none, none, none, none⟩) =
      ([], ⟨[], some 0⟩) ∧
    fetch_live_prices ⟨[], some 0⟩ 10 none = (get_fallback_prices, ⟨[], some 0⟩) ∧
    get_fallback_prices ≠ ([] : List (String × ℚ)) := by
  refine ⟨rfl, ?_, by simp [get_fallback_prices]⟩
  norm_num [fetch_live_prices, fetch_refresh, CACHE_DURATION_MINUTES]

/-- C5: a call strictly inside the 5-minute TTL window returns the cached
mapping for every possible fetch outcome (the source is not consulted) and
leaves the cache state (mapping and timestamp) unchanged. -/
theorem C5_fresh_cache_no_fetch :
    ∀ (st : CacheState) (now t : ℚ) (result : Option ApiData),
      st.cache_timestamp = some t → now - t < CACHE_DURATION_MINUTES →
      fetch_live_prices st now result = (st.price_cache, st) := by
  intro st now t result hts hlt
  simp [fetch_live_prices, hts, hlt]

/-- C5 witness: a concrete in-TTL call returns the cached mapping unchanged. -/
theorem C5_fresh_cache_no_fetch_witness :
    ((⟨[("gold", 100)], some 0⟩ : CacheState).cache_timestamp = some 0) ∧
    ((0:ℚ) - 0 < CACHE_DURATION_MINUTES) ∧
    fetch_live_prices ⟨[("gold", 100)], some 0⟩ 0 none =
      ([("gold", 100)], ⟨[("gold", 100)], some 0⟩) :=
  ⟨rfl, by simp [CACHE_DURATION_MINUTES],
   C5_fresh_cache_no_fetch ⟨[("gold", 100)], some 0⟩ 0 0 none rfl
     (by simp [CACHE_DURATION_MINUTES])⟩

/-- C6: the snapshot upsert preserves the at-most-one-snapshot-per
`(ownerId, date)` invariant, and two successive upserts for the same owner
and date starting from a table with no row for that pair leave exactly one
row for the pair, holding the numeric fields of the second call. -/
theorem C6_upsert_one_snapshot_per_owner_date :
    (∀ (db : List Snapshot) (uid : ℕ) (d : ℤ) (a : SnapAgg),
      SnapInvariant db → SnapInvariant (upsert_snapshot db uid d a)) ∧
    (∀ (db : List Snapshot) (uid : ℕ) (d : ℤ) (a1 a2 : SnapAgg),
      db.countP (snapKeyP uid d) = 0 →
      upsert_snapshot (upsert_snapshot db uid d a1) uid d a2 =
        db ++ [mkSnapshot uid d a2] ∧
      (upsert_snapshot (upsert_snapshot db uid d a1) uid d a2).filter
          (snapKeyP uid d) = [mkSnapshot uid d a2]) := by
  constructor
  · intro db uid d a hinv uid' d'
    by_cases h : uid' = uid ∧ d' = d
    · obtain ⟨rfl, rfl⟩ := h
      rw [countP_upsert_self]
      have := hinv uid' d'
      omega
    · rw [countP_upsert_other db uid d a uid' d' h]
      exact hinv uid' d'
  · intro db uid d a1 a2 h
    have he := upsert_upsert_fresh db uid d a1 a2 h
    refine ⟨he, ?_⟩
    rw [he]
    exact filter_append_single db uid d a2 h

/-- C6 witness: upserting twice for user 1 on day 0 into a table holding only
a row of user 2 yields that row plus exactly one row for user 1 carrying the
numbers of the second call. -/
theorem C6_upsert_one_snapshot_per_owner_date_witness :
    (List.countP (snapKeyP 1 0) [mkSnapshot 2 0 ⟨1, 1, 0, 0, 0, 0, 1⟩] = 0) ∧
    upsert_snapshot
        (upsert_snapshot [mkSnapshot 2 0 ⟨1, 1, 0, 0, 0, 0, 1⟩] 1 0
          ⟨10, 10, 5, 0, 0, 0, 1⟩) 1 0 ⟨20, 30, 5, 0, 0, 0, 1⟩ =
      [mkSnapshot 2 0 ⟨1, 1, 0, 0, 0, 0, 1⟩] ++ [mkSnapshot 1 0 ⟨20, 30, 5, 0, 0, 0, 1⟩] :=
  ⟨by decide,
   (C6_upsert_one_snapshot_per_owner_date.2 [mkSnapshot 2 0 ⟨1, 1, 0, 0, 0, 0, 1⟩]
      1 0 ⟨10, 10, 5, 0, 0, 0, 1⟩ ⟨20, 30, 5, 0, 0, 0, 1⟩ (by decide)).1⟩

/-- C7: unit conversion round-trips exactly for the units g, oz and kg, a
position created through the API satisfies
`weight_grams = quantity * convert_to_grams (weight_per_unit, weight_unit)`,
and a position update through the API preserves that invariant. -/
theorem C7_weight_roundtrip_and_invariant :
    (∀ (x : ℚ) (u : String), u ∈ (["g", "oz", "kg"] : List String) →
      convert_from_grams (convert_to_grams x u) u = x) ∧
    (∀ c : PositionCreate, WeightInvariant (create_position c)) ∧
    (∀ (p : Position) (u : PositionUpdate),
      WeightInvariant p → WeightInvariant (update_position p u)) := by
  refine ⟨?_, ?_, ?_⟩
  · intro x u hu
    simp only [List.mem_cons, List.mem_singleton, List.not_mem_nil, or_false] at hu
    rcases hu with rfl | rfl | rfl <;>
      simp [convert_to_grams, convert_from_grams, WEIGHT_TO_GRAMS,
        List.lookup, mul_div_assoc] <;>
      norm_num
  · intro c
    unfold WeightInvariant create_position
    simp [mul_comm]
  · intro p u h
    unfold update_position
    by_cases hc : u.weight_per_unit.isSome || u.weight_unit.isSome || u.quantity.isSome
    · rw [if_pos hc]
      unfold WeightInvariant
      simp [mul_comm]
    · rw [if_neg hc]
      exact h

/-- C7 witness: the round trip at 2 oz, and preservation of the weight
invariant across a quantity-only update of a concrete position. -/
theorem C7_weight_roundtrip_and_invariant_witness :
    ("oz" ∈ (["g", "oz", "kg"] : List String)) ∧
    convert_from_grams (convert_to_grams 2 "oz") "oz" = 2 ∧
    WeightInvariant c7Pos ∧
    WeightInvariant (update_position c7Pos c7Upd) := by
  have hinv : WeightInvariant c7Pos := by
    simp [WeightInvariant, c7Pos, convert_to_grams, WEIGHT_TO_GRAMS, List.lookup]
  exact ⟨by decide,
    C7_weight_roundtrip_and_invariant.1 2 "oz" (by decide),
    hinv,
    C7_weight_roundtrip_and_invariant.2.2 c7Pos c7Upd hinv⟩

/-- C8: the portfolio summary of an empty position list is total, and all its
totals are 0, its position count is 0 and its per-metal mapping is empty. -/
theorem C8_empty_summary_zero :
    ∀ prices : List (String × ℚ),
      get_portfolio_summary prices [] =
        { total_purchase_value_eur := 0, total_current_value_eur := 0
          total_profit_loss_eur := 0, total_profit_loss_percent := 0
          positions_count := 0, by_metal := [] } :=
  fun _ => rfl

/-- C9: every snapshot row written by the backfiller (modelled from §4.6 of
the spec, there being no implementation under `src/`) is for a day with no
existing snapshot and lies in `[max(purchaseDate, today − 365), today)`; and
for a position purchased 400 days ago the walk start is clamped to
`today − 365`. -/
theorem C9_backfill_no_overwrite_clamped :
    (∀ (owner : ℕ) (position : Position) (allPositions : List Position)
        (existingDates : List ℤ) (today : ℤ) (variance : ℤ → ℚ)
        (referencePrices : List (String × ℚ)),
      ((backfill owner position allPositions existingDates today variance
          referencePrices).all
        (fun w => !(decide (w.date ∈ existingDates)) &&
          backfillWithinRange position today w)) = true) ∧
    (∀ today : ℤ, backfillStart (today - 400) today = today - 365) := by
  constructor
  · intro owner position allPositions existingDates today variance referencePrices
    rw [List.all_eq_true]
    intro w hw
    unfold backfill at hw
    cases hpd : position.purchase_date with
    | none => rw [hpd] at hw; simp at hw
    | some pd =>
      rw [hpd] at hw
      rw [List.mem_filterMap] at hw
      obtain ⟨d, hd, hf⟩ := hw
      by_cases hex : d ∈ existingDates
      · rw [if_pos hex] at hf; exact absurd hf (by simp)
      · rw [if_neg hex] at hf
        by_cases hz : dayTotalPurchase allPositions d = 0
        · rw [if_pos hz] at hf; exact absurd hf (by simp)
        · rw [if_neg hz] at hf
          simp only [Option.some.injEq] at hf
          subst hf
          rw [backfillDays, List.mem_map] at hd
          obtain ⟨i, hir, hieq⟩ := hd
          rw [List.mem_range] at hir
          simp [backfillWithinRange, hpd, hex]
          omega
  · intro today
    unfold backfillStart
    omega

/-- C10: with zero positions the daily snapshot update writes nothing at all:
the snapshot table is returned unchanged, so an existing snapshot for today
keeps its previous totals (the situation after deleting the last position of
a user). -/
theorem C10_no_positions_no_write :
    ∀ (db : List Snapshot) (prices : List (String × ℚ)) (uid : ℕ) (today : ℤ),
      update_daily_snapshot db prices uid today [] = db :=
  fun _ _ _ _ => rfl

end MetalTracker


